import Mathlib

/-!
Verification of the candidate-selection and scoring engine of the
polygon-stock-tracker repository against its natural-language specification.

The Python source is shallowly embedded: pure loops become structural
recursions, wall-clock reads (`datetime.now`) become an explicit `now`
parameter measured in seconds since midnight Eastern time, module-level
mutable dictionaries become explicit state values threaded through the
operations, and network fetches become list parameters holding the data the
fetch would have returned.  Prices are `Rat`, share counts are `Int`.
-/

namespace StockTracker

/-! ### Deficiency check — `src/adapters/polygon_adapter.py`, `is_deficient_nasdaq`

The network fetch is embedded as the `bars` parameter: the list of daily
closes in ascending date order that the Polygon aggregates call returned.
`deficiencyLoop` is the `for bar in reversed(bars)` loop, with the mutable
locals `consecutive_below`, `consecutive_above` and `was_deficient` passed
as accumulators. -/

/-- The per-bar state machine of `is_deficient_nasdaq`, walking closes from
most recent to oldest. -/
def deficiencyLoop (grace : Nat) : List Rat → Nat → Nat → Bool → Bool × String
  | [], _, _, _ => (false, "compliant")
  | close :: rest, below, above, wasDef =>
    if close < 1 then
      -- below threshold: bump the below streak, reset the above streak
      let below' := below + 1
      if 30 ≤ below' then
        (true, "deficient_" ++ toString below' ++ "d_below_$1")
      else
        deficiencyLoop grace rest below' 0 wasDef
    else
      -- at or above threshold
      let wasDef' := if 30 ≤ below then true else wasDef
      let above' := above + 1
      if wasDef' then
        if above' < grace then
          (true, "grace_period_" ++ toString above' ++ "/" ++ toString grace ++ "d")
        else
          (false, "compliant_post_grace")
      else
        deficiencyLoop grace rest 0 above' wasDef'

/-- Source `is_deficient_nasdaq`, with the fetched daily closes (ascending date
order) passed in place of the HTTP call.  Fewer than 30 bars defaults to not
deficient. -/
def is_deficient_nasdaq (bars : List Rat) (grace : Nat) : Bool × String :=
  if bars.length < 30 then (false, "insufficient_history")
  else deficiencyLoop grace bars.reverse 0 0 false

/-! ### Market-open price anchor — `src/scanner/scanner.py` lines 102–115

`MARKET_OPEN_PRICES` is a module-level dict; we model it as an association
list keyed by ticker. -/

/-- The `MARKET_OPEN_PRICES` dict. -/
abbrev AnchorState := List (String × Rat)

/-- Source `record_market_open_price`: record the 9:30 open price only once per
ticker per day. -/
def record_market_open_price (s : AnchorState) (ticker : String) (price : Rat) :
    AnchorState :=
  if (s.lookup ticker).isSome then s else (ticker, price) :: s

/-- Source `get_market_open_price`: the recorded open price, or `none`. -/
def get_market_open_price (s : AnchorState) (ticker : String) : Option Rat :=
  s.lookup ticker

/-- Source `clear_market_open_prices`: wipe all anchors at the start of a new
trading day. -/
def clear_market_open_prices (_ : AnchorState) : AnchorState := []

/-- Recording an anchor for a different ticker, or re-recording an existing
one, never disturbs an anchor that is already set. -/
theorem record_preserves_anchor (st : AnchorState) (t : String) (p : Rat)
    (h : get_market_open_price st t = some p) (a : String) (b : Rat) :
    get_market_open_price (record_market_open_price st a b) t = some p := by
  unfold record_market_open_price get_market_open_price at *
  by_cases hs : (st.lookup a).isSome
  · simp [hs, h]
  · simp only [hs, if_false]
    by_cases hat : a = t
    · subst hat
      rw [h] at hs
      simp at hs
    · have hne : (t == a) = false := beq_eq_false_iff_ne.mpr (Ne.symm hat)
      simpa [List.lookup, hne] using h

/-- Folding any sequence of further `record_market_open_price` calls over a
state keeps an already-set anchor intact. -/
theorem anchor_foldl_preserves (t : String) (p : Rat) :
    ∀ (ops : List (String × Rat)) (st : AnchorState),
      get_market_open_price st t = some p →
      get_market_open_price
        (ops.foldl (fun st q => record_market_open_price st q.1 q.2) st) t = some p
  | [], _, h => h
  | q :: rest, st, h =>
    anchor_foldl_preserves t p rest _ (record_preserves_anchor st t p h q.1 q.2)

/-- C9: the market-open anchor is write-once per ticker: after the first
`record_market_open_price` call stores `p` for a ticker, every later call —
for the same ticker or any other — leaves the stored value at `p`, and
`get_market_open_price` keeps returning `p` until `clear_market_open_prices`
resets the store (after which it returns `none`). -/
theorem market_open_price_write_once (s : AnchorState) (t : String) (p : Rat)
    (h : get_market_open_price s t = none) (ops : List (String × Rat)) :
    get_market_open_price
      (ops.foldl (fun st q => record_market_open_price st q.1 q.2)
        (record_market_open_price s t p)) t = some p
    ∧ get_market_open_price
        (clear_market_open_prices
          (ops.foldl (fun st q => record_market_open_price st q.1 q.2)
            (record_market_open_price s t p))) t = none := by
  have hbase : get_market_open_price (record_market_open_price s t p) t = some p := by
    unfold get_market_open_price at h
    simp [record_market_open_price, get_market_open_price, h, List.lookup]
  exact ⟨anchor_foldl_preserves t p ops _ hbase, rfl⟩

/-- Witness for C9 at a concrete state: `"AAA"` is first recorded at 12, a
re-record at 99 and a record of `"BBB"` leave it at 12. -/
theorem market_open_price_write_once_check :
    get_market_open_price ([] : AnchorState) "AAA" = none
    ∧ get_market_open_price
        ([("AAA", 99), ("BBB", 7)].foldl
          (fun st q => record_market_open_price st q.1 q.2)
          (record_market_open_price ([] : AnchorState) "AAA" 12)) "AAA" = some 12 :=
  ⟨rfl, (market_open_price_write_once [] "AAA" 12 rfl [("AAA", 99), ("BBB", 7)]).1⟩

/-- C1: evaluating the deficiency state machine on the spec's own scenario.
30 closes at $0.80 give `deficient_30d_below_$1`; but after 9 — and even
after 10 — further closes at $1.20 the verdict is still
`(true, deficient_30d_below_$1)`: the grace-period branch of the source is
unreachable, because walking newest→oldest the ≥30-below branch returns
before any at-or-above close can observe `consecutive_below ≥ 30`, so the
10th compliant close never flips the ticker back to compliant as the
docstring and the spec state. -/
theorem is_deficient_nasdaq_grace_period_unreachable :
    is_deficient_nasdaq (List.replicate 30 (mkRat 4 5)) 10
      = (true, "deficient_30d_below_$1")
    ∧ is_deficient_nasdaq
        (List.replicate 30 (mkRat 4 5) ++ List.replicate 9 (mkRat 6 5)) 10
      = (true, "deficient_30d_below_$1")
    ∧ is_deficient_nasdaq
        (List.replicate 30 (mkRat 4 5) ++ List.replicate 10 (mkRat 6 5)) 10
      = (true, "deficient_30d_below_$1") := by
  refine ⟨?_, ?_, ?_⟩ <;> decide

/-! ### Premarket window — `src/scanner/scanner.py`, `within_premarket_window`

Config times and `now` are minutes since midnight ET; 09:30 is minute 570.
The YAML `start_time`/`end_time` strings become the `start_cfg`/`end_cfg`
parameters, and `datetime.now` becomes `now`. -/

/-- Source `within_premarket_window`: true between the configured start and the
effective end, where the effective end is the configured end if it lies
beyond 09:30 and otherwise 09:30 itself. -/
def within_premarket_window (start_cfg end_cfg now : Nat) : Bool :=
  let cap0930 : Nat := 570
  let effective_end := if cap0930 < end_cfg then end_cfg else cap0930
  decide (start_cfg ≤ now ∧ now ≤ effective_end)

/-- Counterexample to C8: with premarket end configured at 09:00 (minute
540, at or before 09:30) the function still returns `true` at 09:15
(minute 555), a time after the configured end — the 09:30 "cap" is a floor,
not a ceiling. -/
theorem premarket_window_cap_counterexample :
    (540 : Nat) ≤ 570 ∧ (540 : Nat) < 555
    ∧ within_premarket_window 240 540 555 = true := by decide

/-- C8 (amended): the PREMARKET window runs from the configured start to the
configured end *or 09:30, whichever is later*.  When the configured end is
at or before 09:30 the window still extends to 09:30 (so the function stays
true between the configured end and 09:30, turning false only after 09:30);
only an end configured strictly later than 09:30 moves the boundary. -/
theorem premarket_window_effective_end (s e n : Nat) :
    (e ≤ 570 → (within_premarket_window s e n = true ↔ s ≤ n ∧ n ≤ 570))
    ∧ (570 < e → (within_premarket_window s e n = true ↔ s ≤ n ∧ n ≤ e)) := by
  constructor
  · intro h
    have h1 : ¬ 570 < e := not_lt.mpr h
    simp [within_premarket_window, h1]
  · intro h
    simp [within_premarket_window, h]

/-- Witness for C8: with end 09:00 the window is still open at 09:15 and
closed at 09:31; with end 10:00 it is open at 09:50. -/
theorem premarket_window_effective_end_check :
    within_premarket_window 240 540 555 = true
    ∧ within_premarket_window 240 540 571 = false
    ∧ within_premarket_window 240 600 590 = true := by
  refine ⟨?_, ?_, ?_⟩
  · exact ((premarket_window_effective_end 240 540 555).1 (by decide)).mpr (by decide)
  · have h := (premarket_window_effective_end 240 540 571).1 (by decide)
    simp only [Bool.eq_false_iff]
    intro hc
    exact absurd (h.mp hc).2 (by decide)
  · exact ((premarket_window_effective_end 240 600 590).2 (by decide)).mpr (by decide)

/-! ### Liquidity gate — `src/scanner/scanner.py`, `apply_liquidity_filters`

A row carries the fields the filter reads; a missing or `None` field is
`none`.  `pyFalsy` renders Python truthiness of an optional number
(`not last` is true for `None` and for `0`).  The config is the
session-selected threshold block. -/

/-- One enriched candidate row, restricted to the fields the gate reads. -/
structure LiqRow where
  last_price : Option Rat
  prev_close : Option Rat
  intraday_volume : Option Int
  avg_daily_volume : Option Int
deriving DecidableEq

/-- Session liquidity thresholds (one block of `cfg["liquidity"]`). -/
structure LiqCfg where
  require_prices : Bool
  min_price : Rat
  min_intraday_shares : Int
  min_avg_daily_volume : Int
  min_dollar_volume : Rat
deriving DecidableEq

/-- Python truthiness test on an optional number: `None` and `0` are falsy. -/
def pyFalsy : Option Rat → Bool
  | none => true
  | some x => x == 0

/-- Source `_dollar_volume`: `last_price × intraday_volume`, with the `except`
branch returning `0.0` when either field is `None`. -/
def dollarVolume (r : LiqRow) : Rat :=
  match r.last_price, r.intraday_volume with
  | some p, some v => p * v
  | _, _ => 0

/-- The drop reasons of the gate's `dropped` counter dict. -/
inductive DropReason
  | missing_prices | price_floor | shares | avg | dollar
deriving DecidableEq

/-- The body of the row loop of `apply_liquidity_filters`: the first failing
threshold, in source order, or `none` if the row passes. -/
def classifyRow (cfg : LiqCfg) (r : LiqRow) : Option DropReason :=
  if cfg.require_prices && (pyFalsy r.last_price || pyFalsy r.prev_close) then
    some .missing_prices
  else if r.last_price.getD 0 < cfg.min_price then
    some .price_floor
  else if r.intraday_volume.getD 0 < cfg.min_intraday_shares then
    some .shares
  else if r.avg_daily_volume.getD 0 < cfg.min_avg_daily_volume then
    some .avg
  else if dollarVolume r < cfg.min_dollar_volume then
    some .dollar
  else
    none

/-- The `dropped` counter dict. -/
structure DropCounts where
  missing_prices : Nat
  price_floor : Nat
  shares : Nat
  avg : Nat
  dollar : Nat
deriving DecidableEq

/-- All counters at zero. -/
def DropCounts.zero : DropCounts := ⟨0, 0, 0, 0, 0⟩

/-- Source `dropped[reason] += 1`. -/
def DropCounts.bump (d : DropCounts) : DropReason → DropCounts
  | .missing_prices => { d with missing_prices := d.missing_prices + 1 }
  | .price_floor => { d with price_floor := d.price_floor + 1 }
  | .shares => { d with shares := d.shares + 1 }
  | .avg => { d with avg := d.avg + 1 }
  | .dollar => { d with dollar := d.dollar + 1 }

/-- Sum of all per-reason drop counts. -/
def DropCounts.total (d : DropCounts) : Nat :=
  d.missing_prices + d.price_floor + d.shares + d.avg + d.dollar

/-- Source `apply_liquidity_filters`: returns the passing rows in order together
with the per-reason drop counts. -/
def apply_liquidity_filters (cfg : LiqCfg) : List LiqRow → List LiqRow × DropCounts
  | [] => ([], .zero)
  | r :: rest =>
    let (out, d) := apply_liquidity_filters cfg rest
    match classifyRow cfg r with
    | none => (r :: out, d)
    | some reason => (out, d.bump reason)

theorem DropCounts.total_bump (d : DropCounts) (reason : DropReason) :
    (d.bump reason).total = d.total + 1 := by
  cases reason <;> simp [DropCounts.bump, DropCounts.total] <;> omega

/-- A permissive liquidity config except for a $1.00 price floor. -/
def liqCfgFloor1 : LiqCfg :=
  { require_prices := true, min_price := 1, min_intraday_shares := 1000,
    min_avg_daily_volume := 1000, min_dollar_volume := 1000 }

/-- A candidate at $0.99 that beats every other threshold by a wide margin. -/
def row99 : LiqRow :=
  { last_price := some (mkRat 99 100), prev_close := some 5,
    intraday_volume := some 1000000000, avg_daily_volume := some 1000000000 }

/-- C7: every input row is either passed or counted under exactly one drop
reason (the first failing threshold in source order: missing prices, price
floor, intraday-share floor, average-daily-volume floor, dollar-volume
floor), so the passed count plus the per-reason drop counts always equals
the input batch size; and a candidate with `last_price = 0.99` is dropped
under `price_floor` when `min_price = 1.00` even though every other
threshold is exceeded by a wide margin. -/
theorem liquidity_filters_accounting :
    (∀ (cfg : LiqCfg) (rows : List LiqRow),
      (apply_liquidity_filters cfg rows).1.length
        + (apply_liquidity_filters cfg rows).2.total = rows.length)
    ∧ classifyRow liqCfgFloor1 row99 = some .price_floor
    ∧ apply_liquidity_filters liqCfgFloor1 [row99]
        = ([], DropCounts.zero.bump .price_floor) := by
  refine ⟨fun cfg rows => ?_, by decide, by decide⟩
  induction rows with
  | nil => rfl
  | cons r rest ih =>
    unfold apply_liquidity_filters
    cases h : classifyRow cfg r <;>
      simp [h, DropCounts.total_bump] <;> omega

/-! ### Final-pick emission — `src/scanner/scanner.py`,
`run_open_selection_once` (lines 1140–1263) and the monitoring loop of
`run` (lines 1298–1348)

`now` is seconds since midnight ET.  The configured
`open_selection.selection_window` is the pair of minutes
(`selStart`, `selEnd`).  The market-data environment of one selection pass
is abstracted to the outcome booleans that decide its control flow: whether
the snapshot prefilter produced candidates, whether enrichment and the
liquidity pass ran without raising, whether any row survived the liquidity
gate, whether `score_snapshots` raised (forcing the RVOL → dollar-volume →
gap fallback ordering), and whether the CSV append succeeded.  The one and
only `append_row` call of `run_open_selection_once` writes
`final_pick = "TRUE"`; the function's value here is the number of such
final rows it appends. -/

/-- The parsed `selection_window` config, in minutes since midnight. -/
structure SelCfg where
  selStart : Nat
  selEnd : Nat
deriving DecidableEq

/-- Outcomes of the externally-visible steps of one selection pass. -/
structure SelEnv where
  candidatesNonempty : Bool
  enrichOk : Bool
  liquidityOk : Bool
  filteredNonempty : Bool
  scoringRaises : Bool
  writeOk : Bool
deriving DecidableEq

/-- Source `within_open_selection_window`. -/
def within_open_selection_window (cfg : SelCfg) (now : Nat) : Bool :=
  decide (cfg.selStart * 60 ≤ now ∧ now ≤ cfg.selEnd * 60)

/-- Source `run_open_selection_once`: the number of `is_final = TRUE` rows the pass
appends.  When scoring succeeds the top-scored row is written; when scoring
raises, the fallback `max` over the (nonempty) filtered rows is written —
either way exactly one final row goes out, so `scoringRaises` does not
affect the count. -/
def run_open_selection_once (cfg : SelCfg) (env : SelEnv) (force : Bool)
    (now : Nat) : Nat :=
  if !force && !within_open_selection_window cfg now then 0
  else if !env.candidatesNonempty then 0
  else if !env.enrichOk then 0
  else if !env.liquidityOk then 0
  else if !env.filteredNonempty then 0
  else if env.writeOk then 1
  else 0

/-- The `pick_made` flag plus the running count of final rows appended. -/
structure LoopState where
  pickMade : Bool
  emitted : Nat
deriving DecidableEq

/-- PRIORITY 1 of the loop: the wall clock is in the exact start minute of
the selection window (`now.hour == start.hour and now.minute ==
start.minute`). -/
def atWindowStartMinute (cfg : SelCfg) (now : Nat) : Bool :=
  decide (now / 3600 = cfg.selStart / 60 ∧ (now % 3600) / 60 = cfg.selStart % 60)

/-- One iteration of the `while True` monitoring loop of `run`, restricted
to its final-pick logic: exact-start-minute forced pick, in-window pick,
else late forced pick once the window has passed; in every triggered branch
`pick_made` is set.  The watchlist/top-5 section below it appends no final
rows. -/
def monitor_tick (cfg : SelCfg) (st : LoopState) (now : Nat) (env : SelEnv) :
    LoopState :=
  if st.pickMade then st
  else if atWindowStartMinute cfg now then
    { pickMade := true, emitted := st.emitted + run_open_selection_once cfg env true now }
  else if within_open_selection_window cfg now then
    { pickMade := true, emitted := st.emitted + run_open_selection_once cfg env false now }
  else if cfg.selEnd * 60 < now then
    { pickMade := true, emitted := st.emitted + run_open_selection_once cfg env true now }
  else st

/-- A simulated trading day: the loop folded over its ticks (each a wall
clock reading and the market environment seen by that tick), starting from
`pick_made = False` and nothing emitted. -/
def run_monitor_day (cfg : SelCfg) (ticks : List (Nat × SelEnv)) : LoopState :=
  ticks.foldl (fun st t => monitor_tick cfg st t.1 t.2) ⟨false, 0⟩

/-- Normal operation: data present and the CSV write succeeds.  Note
`scoringRaises` is unconstrained — the scoring-exception fallback is one of
the covered scenarios. -/
def SelEnv.normal (e : SelEnv) : Bool :=
  e.candidatesNonempty && e.enrichOk && e.liquidityOk && e.filteredNonempty && e.writeOk

/-- A tick at which the loop commits to a pick: at the window's start
minute (scenario a, forced at the boundary), inside the window (scenario
a), or past the window's end (scenario b, late forced pick). -/
def triggersSelection (cfg : SelCfg) (now : Nat) : Bool :=
  atWindowStartMinute cfg now || within_open_selection_window cfg now
    || decide (cfg.selEnd * 60 < now)

theorem run_open_selection_once_le_one (cfg : SelCfg) (env : SelEnv)
    (force : Bool) (now : Nat) : run_open_selection_once cfg env force now ≤ 1 := by
  unfold run_open_selection_once
  repeat' split
  all_goals omega

theorem monitor_tick_picked (cfg : SelCfg) (n : Nat) (now : Nat) (env : SelEnv) :
    monitor_tick cfg ⟨true, n⟩ now env = ⟨true, n⟩ := rfl

theorem monitor_fold_picked (cfg : SelCfg) :
    ∀ (ticks : List (Nat × SelEnv)) (n : Nat),
      ticks.foldl (fun st t => monitor_tick cfg st t.1 t.2) ⟨true, n⟩ = ⟨true, n⟩
  | [], _ => rfl
  | t :: rest, n => by
    rw [List.foldl_cons, monitor_tick_picked]
    exact monitor_fold_picked cfg rest n

theorem monitor_tick_triggered (cfg : SelCfg) (now : Nat) (env : SelEnv)
    (hnorm : env.normal = true) (htrig : triggersSelection cfg now = true) :
    monitor_tick cfg ⟨false, 0⟩ now env = ⟨true, 1⟩ := by
  have h := hnorm
  simp only [SelEnv.normal, Bool.and_eq_true] at h
  obtain ⟨⟨⟨⟨h1, h2⟩, h3⟩, h4⟩, h5⟩ := h
  have hforced : run_open_selection_once cfg env true now = 1 := by
    simp [run_open_selection_once, h1, h2, h3, h4, h5]
  simp only [triggersSelection, Bool.or_eq_true] at htrig
  by_cases c1 : atWindowStartMinute cfg now = true
  · simp [monitor_tick, c1, hforced]
  · by_cases c2 : within_open_selection_window cfg now = true
    · have hin : run_open_selection_once cfg env false now = 1 := by
        simp [run_open_selection_once, c2, h1, h2, h3, h4, h5]
      simp [monitor_tick, c1, c2, hin]
    · have c3 : cfg.selEnd * 60 < now := by
        rcases htrig with (h | h) | h
        · exact absurd h c1
        · exact absurd h c2
        · simpa using h
      simp [monitor_tick, c1, c2, c3, hforced]

theorem monitor_tick_untriggered (cfg : SelCfg) (now : Nat) (env : SelEnv)
    (htrig : triggersSelection cfg now = false) (n : Nat) :
    monitor_tick cfg ⟨false, n⟩ now env = ⟨false, n⟩ := by
  simp only [triggersSelection, Bool.or_eq_false_iff] at htrig
  obtain ⟨⟨h1, h2⟩, h3⟩ := htrig
  have h3' : ¬ cfg.selEnd * 60 < now := by simpa using h3
  simp [monitor_tick, h1, h2, h3']

theorem monitor_fold_le_one (cfg : SelCfg) :
    ∀ (ticks : List (Nat × SelEnv)) (st : LoopState),
      (st.pickMade = false → st.emitted = 0) → st.emitted ≤ 1 →
      (ticks.foldl (fun st t => monitor_tick cfg st t.1 t.2) st).emitted ≤ 1
  | [], _, _, hle => hle
  | t :: rest, st, hzero, hle => by
    rw [List.foldl_cons]
    rcases hp : st.pickMade with _ | _
    · have hst : st.emitted = 0 := hzero hp
      obtain ⟨b, n⟩ := st
      simp only at hp hst
      subst hp; subst hst
      have hb1 := run_open_selection_once_le_one cfg t.2 true t.1
      have hb2 := run_open_selection_once_le_one cfg t.2 false t.1
      have hcase : monitor_tick cfg ⟨false, 0⟩ t.1 t.2 = ⟨false, 0⟩ ∨
          ∃ k, k ≤ 1 ∧ monitor_tick cfg ⟨false, 0⟩ t.1 t.2 = ⟨true, k⟩ := by
        by_cases c1 : atWindowStartMinute cfg t.1 = true
        · exact Or.inr ⟨_, hb1, by simp [monitor_tick, c1]⟩
        · by_cases c2 : within_open_selection_window cfg t.1 = true
          · exact Or.inr ⟨_, hb2, by simp [monitor_tick, c1, c2]⟩
          · by_cases c3 : cfg.selEnd * 60 < t.1
            · exact Or.inr ⟨_, hb1, by simp [monitor_tick, c1, c2, c3]⟩
            · exact Or.inl (by simp [monitor_tick, c1, c2, c3])
      rcases hcase with hc | ⟨k, hk, hc⟩
      · rw [hc]
        exact monitor_fold_le_one cfg rest _ (fun _ => rfl) (Nat.zero_le 1)
      · rw [hc, monitor_fold_picked]
        exact hk
    · obtain ⟨b, n⟩ := st
      simp only at hp
      subst hp
      rw [monitor_tick_picked, monitor_fold_picked]
      exact hle

/-- C2: over any simulated trading day the monitoring loop appends at most
one `is_final = TRUE` row; and under normal operation (data present, CSV
write succeeding, scoring free to succeed or raise) with at least one tick
that reaches the selection logic — a tick at the window's start minute, a
tick inside the window (normal pick), or a tick after the window has
passed (late forced pick) — it appends exactly one, and every tick after
the pick emits nothing. -/
theorem final_pick_emitted_exactly_once (cfg : SelCfg)
    (ticks : List (Nat × SelEnv))
    (hnorm : ∀ t ∈ ticks, SelEnv.normal t.2 = true)
    (htrig : ∃ t ∈ ticks, triggersSelection cfg t.1 = true) :
    (run_monitor_day cfg ticks).emitted = 1
    ∧ ∀ (ticks2 : List (Nat × SelEnv)), (run_monitor_day cfg ticks2).emitted ≤ 1 := by
  refine ⟨?_, fun ticks2 => monitor_fold_le_one cfg ticks2 ⟨false, 0⟩ (fun _ => rfl)
    (Nat.zero_le 1)⟩
  induction ticks with
  | nil => simp at htrig
  | cons t rest ih =>
    by_cases ht : triggersSelection cfg t.1 = true
    · rw [run_monitor_day, List.foldl_cons,
        monitor_tick_triggered cfg t.1 t.2 (hnorm t (by simp)) ht,
        monitor_fold_picked]
    · have ht' : triggersSelection cfg t.1 = false := by
        simpa using ht
      rw [run_monitor_day, List.foldl_cons, monitor_tick_untriggered cfg t.1 t.2 ht']
      have : ∃ x ∈ rest, triggersSelection cfg x.1 = true := by
        rcases htrig with ⟨x, hx, hxt⟩
        rcases List.mem_cons.mp hx with rfl | hx'
        · exact absurd hxt ht
        · exact ⟨x, hx', hxt⟩
      exact ih (fun x hx => hnorm x (List.mem_cons_of_mem t hx)) this

/-- Witness for C2: selection window 09:50–09:55; the day's ticks hit the
start minute (09:50:00, normal scoring), a later in-window scoring-raise
tick, and two after-window ticks — exactly one final row comes out. -/
theorem final_pick_emitted_exactly_once_check :
    (∀ t ∈ [((35400 : Nat), SelEnv.mk true true true true false true),
            ((35700 : Nat), SelEnv.mk true true true true true true),
            ((36000 : Nat), SelEnv.mk true true true true true true)],
        SelEnv.normal t.2 = true)
    ∧ (∃ t ∈ [((35400 : Nat), SelEnv.mk true true true true false true),
              ((35700 : Nat), SelEnv.mk true true true true true true),
              ((36000 : Nat), SelEnv.mk true true true true true true)],
        triggersSelection ⟨590, 595⟩ t.1 = true)
    ∧ (run_monitor_day ⟨590, 595⟩
        [((35400 : Nat), SelEnv.mk true true true true false true),
         ((35700 : Nat), SelEnv.mk true true true true true true),
         ((36000 : Nat), SelEnv.mk true true true true true true)]).emitted = 1 :=
  ⟨by decide, by decide,
    (final_pick_emitted_exactly_once ⟨590, 595⟩ _ (by decide) (by decide)).1⟩

/-! ### Heartbeat detector — `src/scanner/scanner.py`, `has_heartbeat`
(lines 174–250) with `get_heartbeat_window_minutes` and `is_market_open`

A history entry is one `(timestamp, price, volume)` triplet of
`SNAPSHOT_HISTORY[ticker]`, oldest first; timestamps and `now` are seconds
since midnight ET.  The `MARKET_OPEN_PRICES` lookup for the ticker is the
`anchor` parameter. -/

/-- One `(timestamp, price, volume)` snapshot of a ticker's history. -/
structure HBEntry where
  ts : Int
  price : Rat
  vol : Int
deriving DecidableEq

/-- Source `get_heartbeat_window_minutes`: 30 before 09:30, 5 from 09:30 to noon,
30 afterwards. -/
def get_heartbeat_window_minutes (now : Nat) : Nat :=
  let hour := now / 3600
  let minute := (now % 3600) / 60
  if hour < 9 ∨ (hour = 9 ∧ minute < 30) then 30
  else if hour < 12 then 5
  else 30

/-- Source `is_market_open`: after 09:30 ET. -/
def is_market_open (now : Nat) : Bool :=
  let hour := now / 3600
  let minute := (now % 3600) / 60
  decide (9 < hour ∨ (hour = 9 ∧ 30 ≤ minute))

/-- The history entries whose timestamp falls inside the adaptive lookback
window ending at `now` (`recent = [s for s in history if s[0] >= cutoff_time]`). -/
def windowFiltered (history : List HBEntry) (now : Nat) : List HBEntry :=
  let w := get_heartbeat_window_minutes now
  history.filter (fun s => decide ((now : Int) - (w : Int) * 60 ≤ s.ts))

/-- Source `history[-2:]`. -/
def lastTwo (l : List HBEntry) : List HBEntry := l.drop (l.length - 2)

/-- The window entries actually analysed: the in-window entries when at
least 2 remain, the last two raw entries as the tight-window fallback, and
an empty list in the `no_data` case. -/
def heartbeatRecent (history : List HBEntry) (now : Nat) : List HBEntry :=
  let recent := windowFiltered history now
  if 2 ≤ recent.length then recent
  else if get_heartbeat_window_minutes now ≤ 5 ∧ 2 ≤ history.length then lastTwo history
  else []

/-- The reference price and its label: the market-open anchor when the
market is open and the anchor exists, else the oldest in-window price. -/
def refPair (recent : List HBEntry) (anchor : Option Rat) (now : Nat) : Rat × String :=
  if is_market_open now ∧ anchor.isSome then
    (anchor.getD 0, "open_930")
  else
    ((recent.headD ⟨0, 0, 0⟩).price,
      "last_" ++ toString (get_heartbeat_window_minutes now) ++ "min")

/-- Source `has_heartbeat`: classify a ticker as actively moving or stale.
Defaults in the source: `min_price_change_pct = 0.5`,
`min_volume_growth = 1000`. -/
def has_heartbeat (history : List HBEntry) (anchor : Option Rat) (now : Nat)
    (min_price_change_pct : Rat) (min_volume_growth : Int) : Bool × String :=
  if history.length < 2 then (true, "first_scan_pass")
  else
    let w := get_heartbeat_window_minutes now
    let recent := heartbeatRecent history now
    if recent.length < 2 then (false, "no_data_in_last_" ++ toString w ++ "min")
    else
      let newest := recent.getLastD ⟨0, 0, 0⟩
      let oldest := recent.headD ⟨0, 0, 0⟩
      let rp := refPair recent anchor now
      if rp.1 ≤ 0 then (false, "invalid_price")
      else
        let price_change_pct := (newest.price - rp.1) / rp.1 * 100
        let volume_growth := newest.vol - oldest.vol
        -- len(set(prices)) == 1 over the nonempty window
        let is_frozen := recent.all (fun s => s.price == oldest.price)
        if is_frozen then (false, "price_frozen")
        else if price_change_pct < 0 then (false, "downtrending_vs_" ++ rp.2)
        else if price_change_pct < min_price_change_pct
            ∧ volume_growth < min_volume_growth then
          (false, "insufficient_movement_vs_" ++ rp.2)
        else (true, "active_vs_" ++ rp.2)

theorem heartbeatRecent_of_two_in_window (history : List HBEntry) (now : Nat)
    (h2 : 2 ≤ (windowFiltered history now).length) :
    heartbeatRecent history now = windowFiltered history now := by
  unfold heartbeatRecent
  simp [h2]

/-- C4 (amended): at least 2 entries inside the active window, all with the
same price, classify as `(false, price_frozen)` — provided the reference
price the detector derives (the anchor when the market is open and it
exists, else that common window price) is positive; a non-positive
reference is reported as `invalid_price` first. -/
theorem heartbeat_price_frozen_inactive (history : List HBEntry)
    (anchor : Option Rat) (now : Nat) (minPct : Rat) (minVol : Int) (p : Rat)
    (h2 : 2 ≤ (windowFiltered history now).length)
    (hall : ∀ x ∈ windowFiltered history now, x.price = p)
    (href : 0 < (refPair (windowFiltered history now) anchor now).1) :
    has_heartbeat history anchor now minPct minVol = (false, "price_frozen") := by
  have hl : (windowFiltered history now).length ≤ history.length :=
    List.length_filter_le _ _
  have hn2 : ¬ history.length < 2 := by omega
  have hr2 : ¬ (windowFiltered history now).length < 2 := by omega
  have hold : ((windowFiltered history now).headD ⟨0, 0, 0⟩).price = p := by
    rcases hR : windowFiltered history now with _ | ⟨a, t⟩
    · rw [hR] at h2; simp at h2
    · have : a ∈ windowFiltered history now := by rw [hR]; exact List.mem_cons_self a t
      simpa using hall a this
  have hfrozen : (windowFiltered history now).all
      (fun s => s.price == ((windowFiltered history now).headD ⟨0, 0, 0⟩).price) = true := by
    rw [List.all_eq_true]
    intro x hx
    rw [beq_iff_eq, hold, hall x hx]
  have hinv : ¬ (refPair (windowFiltered history now) anchor now).1 ≤ 0 :=
    not_le.mpr href
  unfold has_heartbeat
  rw [if_neg hn2]
  simp only [heartbeatRecent_of_two_in_window history now h2]
  rw [if_neg hr2, if_neg hinv, if_pos (by simpa using hfrozen)]

/-- Counterexample to C4: two in-window entries whose prices are identical
(both zero), but the classification is `invalid_price`, not `price_frozen`:
the non-positive-reference check precedes the frozen check. -/
theorem heartbeat_frozen_zero_price_invalid :
    (2 ≤ (windowFiltered [⟨27900, 0, 100⟩, ⟨28500, 0, 200⟩] 28800).length
      ∧ ∀ x ∈ windowFiltered [⟨27900, 0, 100⟩, ⟨28500, 0, 200⟩] 28800, x.price = 0)
    ∧ has_heartbeat [⟨27900, 0, 100⟩, ⟨28500, 0, 200⟩] none 28800 (mkRat 1 2) 1000
        = (false, "invalid_price")
    ∧ (has_heartbeat [⟨27900, 0, 100⟩, ⟨28500, 0, 200⟩] none 28800 (mkRat 1 2) 1000).2
        ≠ "price_frozen" := by decide

/-- Witness for C4 at a concrete premarket state: two in-window entries,
both at $5. -/
theorem heartbeat_price_frozen_inactive_check :
    has_heartbeat [⟨27900, 5, 100⟩, ⟨28500, 5, 200⟩] none 28800 (mkRat 1 2) 1000
      = (false, "price_frozen") :=
  heartbeat_price_frozen_inactive [⟨27900, 5, 100⟩, ⟨28500, 5, 200⟩] none 28800
    (mkRat 1 2) 1000 5 (by decide) (by decide) (by decide)

/-- C3 (amended): a ticker whose newest in-window price is below the
reference price (market-open anchor when the market is open and the anchor
exists, else the oldest in-window price) is classified inactive with reason
`downtrending_vs_<ref>` regardless of volume growth — provided the window
prices are not all identical and the reference is positive; a frozen window
is reported as `price_frozen` first (and a non-positive reference as
`invalid_price`). -/
theorem heartbeat_downtrending_inactive (history : List HBEntry)
    (anchor : Option Rat) (now : Nat) (minPct : Rat) (minVol : Int)
    (h2 : 2 ≤ (windowFiltered history now).length)
    (hnf : ¬ (windowFiltered history now).all
        (fun s => s.price == ((windowFiltered history now).headD ⟨0, 0, 0⟩).price) = true)
    (href : 0 < (refPair (windowFiltered history now) anchor now).1)
    (hdown : ((windowFiltered history now).getLastD ⟨0, 0, 0⟩).price
        < (refPair (windowFiltered history now) anchor now).1) :
    has_heartbeat history anchor now minPct minVol
      = (false, "downtrending_vs_"
          ++ (refPair (windowFiltered history now) anchor now).2) := by
  have hl : (windowFiltered history now).length ≤ history.length :=
    List.length_filter_le _ _
  have hn2 : ¬ history.length < 2 := by omega
  have hr2 : ¬ (windowFiltered history now).length < 2 := by omega
  have hinv : ¬ (refPair (windowFiltered history now) anchor now).1 ≤ 0 :=
    not_le.mpr href
  have hpct : (((windowFiltered history now).getLastD ⟨0, 0, 0⟩).price
        - (refPair (windowFiltered history now) anchor now).1)
        / (refPair (windowFiltered history now) anchor now).1 * 100 < 0 := by
    have hnum : ((windowFiltered history now).getLastD ⟨0, 0, 0⟩).price
        - (refPair (windowFiltered history now) anchor now).1 < 0 :=
      sub_neg.mpr hdown
    have := div_neg_of_neg_of_pos hnum href
    exact mul_neg_of_neg_of_pos this (by norm_num)
  unfold has_heartbeat
  rw [if_neg hn2]
  simp only [heartbeatRecent_of_two_in_window history now h2]
  rw [if_neg hr2, if_neg hinv, if_neg (by simpa using hnf), if_pos hpct]

/-- Counterexample to C3: market open, anchor at $10, both in-window prices
at $9 — the newest price is below the reference, yet the reported reason is
`price_frozen`, not `downtrending_vs_open_930`: the frozen check precedes
the downtrend check. -/
theorem heartbeat_frozen_precedes_downtrending :
    ((windowFiltered [⟨35800, 9, 100⟩, ⟨35900, 9, 200⟩] 36000).getLastD ⟨0, 0, 0⟩).price
        < (refPair (windowFiltered [⟨35800, 9, 100⟩, ⟨35900, 9, 200⟩] 36000)
            (some 10) 36000).1
    ∧ has_heartbeat [⟨35800, 9, 100⟩, ⟨35900, 9, 200⟩] (some 10) 36000 (mkRat 1 2) 1000
        = (false, "price_frozen")
    ∧ (has_heartbeat [⟨35800, 9, 100⟩, ⟨35900, 9, 200⟩] (some 10) 36000
        (mkRat 1 2) 1000).2 ≠ "downtrending_vs_open_930" := by decide

/-- Witness for C3 at a concrete intraday state: anchor $10, window prices
$9 then $8. -/
theorem heartbeat_downtrending_inactive_check :
    has_heartbeat [⟨35800, 9, 100⟩, ⟨35900, 8, 200⟩] (some 10) 36000 (mkRat 1 2) 1000
      = (false, "downtrending_vs_open_930") :=
  heartbeat_downtrending_inactive [⟨35800, 9, 100⟩, ⟨35900, 8, 200⟩] (some 10) 36000
    (mkRat 1 2) 1000 (by decide) (by decide) (by decide) (by decide)

/-! ### Composite scorer — `src/scanner/scanner.py`,
`calculate_composite_score` (lines 323–359) with
`calculate_gap_decay_factor`

`math.log10` is `Real.logb 10`, so prices and scores here live in `ℝ`.
`calculate_intraday_delta`, `calculate_volume_rate` and `has_heartbeat`
read the global history and clock; their results enter
`calculate_composite_score` as the `intraday_delta`, `volume_rate` and
`has_pulse` parameters. -/

/-- Source `math.log10`. -/
noncomputable def log10 (x : ℝ) : ℝ := Real.logb 10 x

/-- The absolute-volume bonus term of `calculate_composite_score`:
`min(log10(max(volume_millions, 0.1)) * 5.0, 15.0) if volume_millions > 0
else 0`. -/
noncomputable def abs_vol_score (current_volume : ℤ) : ℝ :=
  let volume_millions : ℝ := (current_volume : ℝ) / 1000000
  if 0 < volume_millions then min (log10 (max volume_millions 0.1) * 5) 15 else 0

/-- Source `calculate_gap_decay_factor`: full weight before the 09:30 open
(second 34200), then linear 10 %-per-hour decay floored at 0.4. -/
noncomputable def calculate_gap_decay_factor (now : Nat) : ℝ :=
  if now < 34200 then 1
  else max 0.4 (1 - ((now : ℝ) - 34200) / 3600 * 0.1)

/-- Source `calculate_composite_score`: decayed gap + intraday delta + volume
rate + absolute-volume bonus + heartbeat velocity bonus. -/
noncomputable def calculate_composite_score (now : Nat)
    (gap_pct intraday_delta volume_rate : ℝ) (current_volume : ℤ)
    (has_pulse : Bool) : ℝ :=
  let gap_score := gap_pct * calculate_gap_decay_factor now * 0.20
  let delta_score := intraday_delta * 0.30
  let rate_score := volume_rate / 1000 * 0.15
  let vol_score := rate_score + abs_vol_score current_volume
  let velocity_bonus : ℝ := if has_pulse then 20.0 else 0.0
  gap_score + delta_score + vol_score + velocity_bonus

theorem calculate_gap_decay_factor_nonneg (now : Nat) :
    0 ≤ calculate_gap_decay_factor now := by
  unfold calculate_gap_decay_factor
  split
  · norm_num
  · exact le_trans (by norm_num) (le_max_left _ _)

theorem abs_vol_score_mono (v v' : ℤ) (h0 : 0 < v) (h : v ≤ v') :
    abs_vol_score v ≤ abs_vol_score v' := by
  have hv : (0 : ℝ) < (v : ℝ) / 1000000 :=
    div_pos (by exact_mod_cast h0) (by norm_num)
  have hle : (v : ℝ) / 1000000 ≤ (v' : ℝ) / 1000000 :=
    (div_le_div_iff_of_pos_right (by norm_num)).mpr (by exact_mod_cast h)
  have hv' : (0 : ℝ) < (v' : ℝ) / 1000000 := lt_of_lt_of_le hv hle
  simp only [abs_vol_score, log10]
  rw [if_pos hv, if_pos hv']
  refine min_le_min (mul_le_mul_of_nonneg_right ?_ (by norm_num)) le_rfl
  exact Real.logb_le_logb_of_le (by norm_num)
    (lt_of_lt_of_le (by norm_num) (le_max_right _ _)) (max_le_max hle le_rfl)

/-- C5: the composite score is monotone in each positive component when the
others and the heartbeat flag are held fixed — non-decreasing in the gap
percentage, the volume rate and the (positive) absolute volume, and
strictly increasing in the 30-minute intraday delta. -/
theorem composite_score_monotone (now : Nat) (g g' d d' r r' : ℝ) (v v' : ℤ)
    (pulse : Bool) (hg : g ≤ g') (hd : d < d') (hr : r ≤ r') (hv0 : 0 < v)
    (hvv : v ≤ v') :
    calculate_composite_score now g d r v pulse
      ≤ calculate_composite_score now g' d r v pulse
    ∧ calculate_composite_score now g d r v pulse
      < calculate_composite_score now g d' r v pulse
    ∧ calculate_composite_score now g d r v pulse
      ≤ calculate_composite_score now g d r' v pulse
    ∧ calculate_composite_score now g d r v pulse
      ≤ calculate_composite_score now g d r v' pulse := by
  have hdec := calculate_gap_decay_factor_nonneg now
  have habs := abs_vol_score_mono v v' hv0 hvv
  simp only [calculate_composite_score]
  refine ⟨?_, ?_, ?_, ?_⟩
  · have : g * calculate_gap_decay_factor now * 0.20
        ≤ g' * calculate_gap_decay_factor now * 0.20 := by nlinarith
    linarith
  · nlinarith
  · nlinarith
  · linarith

/-- Witness for C5 at concrete component values (premarket decay, volume
one vs two million shares). -/
theorem composite_score_monotone_check :
    ((0 : ℝ) ≤ 1 ∧ (0 : ℝ) < 1 ∧ (0 : ℤ) < 1000000 ∧ (1000000 : ℤ) ≤ 2000000)
    ∧ calculate_composite_score 0 0 0 0 1000000 false
      < calculate_composite_score 0 0 1 0 1000000 false :=
  ⟨by norm_num,
    (composite_score_monotone 0 0 1 0 1 0 1 1000000 2000000 false (by norm_num)
      (by norm_num) (by norm_num) (by norm_num) (by norm_num)).2.1⟩

/-- Counterexample to C6: at `volume = 10,000` shares the source floors
`volume_millions` at 0.1 before taking the log, so the component is
`log10(0.1) × 5 = -5`, not the claim's `log10(volume_millions) × 5 = -10`. -/
theorem abs_vol_floor_counterexample :
    abs_vol_score 10000 = -5
    ∧ log10 ((10000 : ℝ) / 1000000) * 5 = -10
    ∧ (-5 : ℝ) ≠ -10 := by
  have hten : Real.logb 10 ((10 : ℝ)⁻¹) = -1 := by
    rw [Real.logb_inv, Real.logb_self_eq_one (by norm_num)]
  refine ⟨?_, ?_, by norm_num⟩
  · have hv : (0 : ℝ) < ((10000 : ℤ) : ℝ) / 1000000 := by norm_num
    simp only [abs_vol_score, log10]
    rw [if_pos hv]
    rw [show max (((10000 : ℤ) : ℝ) / 1000000) 0.1 = (10 : ℝ)⁻¹ by
      rw [max_eq_right (by norm_num)]; norm_num]
    rw [hten]
    rw [min_eq_left (by norm_num)]
    norm_num
  · simp only [log10]
    rw [show (10000 : ℝ) / 1000000 = ((10 : ℝ) ^ (2 : ℕ))⁻¹ by norm_num]
    rw [Real.logb_inv, Real.logb_pow, Real.logb_self_eq_one (by norm_num)]
    norm_num

/-- C6 (amended): the absolute-volume component is
`min(log10(volume_in_millions) × 5, 15)` whenever `volume_in_millions ≥
0.1`; for `0 < volume_in_millions < 0.1` the inner `max(·, 0.1)` floor
pins it at `log10(0.1) × 5 = -5`; and it is `0` when `volume_in_millions ≤
0`. -/
theorem abs_vol_score_characterization (v : ℤ) :
    ((1 : ℝ) / 10 ≤ (v : ℝ) / 1000000 →
      abs_vol_score v = min (log10 ((v : ℝ) / 1000000) * 5) 15)
    ∧ (0 < (v : ℝ) / 1000000 → (v : ℝ) / 1000000 < 1 / 10 →
      abs_vol_score v = -5)
    ∧ ((v : ℝ) / 1000000 ≤ 0 → abs_vol_score v = 0) := by
  refine ⟨?_, ?_, ?_⟩
  · intro h
    have hv : (0 : ℝ) < (v : ℝ) / 1000000 := lt_of_lt_of_le (by norm_num) h
    simp only [abs_vol_score, log10]
    rw [if_pos hv, max_eq_left (le_trans (by norm_num) h)]
  · intro h0 hlt
    simp only [abs_vol_score, log10]
    rw [if_pos h0, max_eq_right (le_of_lt (lt_of_lt_of_le hlt (by norm_num)))]
    rw [show (0.1 : ℝ) = (10 : ℝ)⁻¹ by norm_num]
    rw [Real.logb_inv, Real.logb_self_eq_one (by norm_num)]
    rw [min_eq_left (by norm_num)]
    norm_num
  · intro h
    simp only [abs_vol_score, log10]
    rw [if_neg (not_lt.mpr h)]

/-- Witness for C6 at one million, ten thousand, and zero shares. -/
theorem abs_vol_score_characterization_check :
    abs_vol_score 1000000 = min (log10 (((1000000 : ℤ) : ℝ) / 1000000) * 5) 15
    ∧ abs_vol_score 10000 = -5
    ∧ abs_vol_score 0 = 0 :=
  ⟨(abs_vol_score_characterization 1000000).1 (by norm_num),
    (abs_vol_score_characterization 10000).2.1 (by norm_num) (by norm_num),
    (abs_vol_score_characterization 0).2.2 (by norm_num)⟩

/-! ### Core scoring module — `src/core/scoring.py`, `score_gap`,
`score_rvol`, `score_atr_stretch`, `score_catalyst`,
`calculate_final_score`

The `weights` dict is a record; `calculate_final_score` reads each key
with the source's `.get` defaults, so the default configuration — an
absent key for every weight — is `defaultWeights`. -/

/-- Source `score_gap`: `max(0.0, min(gap_pct, 100.0))`. -/
noncomputable def score_gap (gap_pct : ℝ) : ℝ := max 0 (min gap_pct 100)

/-- Source `score_rvol`: `min(max(rvol, 0.0), 5.0) * 10.0`. -/
noncomputable def score_rvol (rvol : ℝ) : ℝ := min (max rvol 0) 5 * 10

/-- Source `score_atr_stretch`: `0` at or beyond the threshold, else
`max(0.0, 1.0 - stretch / threshold) * 100.0`. -/
noncomputable def score_atr_stretch (stretch threshold : ℝ) : ℝ :=
  if threshold ≤ stretch then 0 else max 0 (1 - stretch / threshold) * 100

/-- Source `score_catalyst`. -/
noncomputable def score_catalyst (has_catalyst : Bool) : ℝ :=
  if has_catalyst then 100 else 0

/-- The `weights` dict of `calculate_final_score`. -/
structure ScoringWeights where
  gap_percent : ℝ
  rvol : ℝ
  atr_stretch : ℝ
  catalyst : ℝ
  atr_threshold : ℝ

/-- The source's `.get` defaults: 0.4 / 0.3 / 0.2 / 0.1, ATR threshold 2. -/
noncomputable def defaultWeights : ScoringWeights := ⟨0.4, 0.3, 0.2, 0.1, 2⟩

/-- Source `calculate_final_score`: the weighted sum of the four component scores,
with the ATR threshold floored at 0.0001. -/
noncomputable def calculate_final_score (gap_pct rvol atr_stretch : ℝ)
    (has_catalyst : Bool) (w : ScoringWeights) : ℝ :=
  score_gap gap_pct * w.gap_percent
    + score_rvol rvol * w.rvol
    + score_atr_stretch atr_stretch (max 0.0001 w.atr_threshold) * w.atr_stretch
    + score_catalyst has_catalyst * w.catalyst

/-- Counterexample to C10: at `atr_stretch = -2` (with the default
threshold 2) the ATR component is 200, outside the claim's `[0, 100]`
range, and the final score with default weights reaches 105 > 85. -/
theorem final_score_exceeds_85_on_negative_stretch :
    score_atr_stretch (-2) (max 0.0001 defaultWeights.atr_threshold) = 200
    ∧ calculate_final_score 100 5 (-2) true defaultWeights = 105
    ∧ ¬ calculate_final_score 100 5 (-2) true defaultWeights ≤ 85 := by
  have hth : max (0.0001 : ℝ) defaultWeights.atr_threshold = 2 := by
    rw [show defaultWeights.atr_threshold = (2 : ℝ) from rfl,
      max_eq_right (by norm_num)]
  have hatr : score_atr_stretch (-2) (max 0.0001 defaultWeights.atr_threshold)
      = 200 := by
    rw [hth]
    unfold score_atr_stretch
    rw [if_neg (by norm_num), show (1 : ℝ) - (-2) / 2 = 2 by norm_num,
      max_eq_right (by norm_num)]
    norm_num
  have hgap : score_gap 100 = 100 := by
    unfold score_gap
    rw [min_self, max_eq_right (by norm_num)]
  have hrvol : score_rvol 5 = 50 := by
    unfold score_rvol
    rw [max_eq_left (by norm_num), min_self]
    norm_num
  have hcat : score_catalyst true = 100 := rfl
  have hfinal : calculate_final_score 100 5 (-2) true defaultWeights = 105 := by
    unfold calculate_final_score
    rw [hatr, hgap, hrvol, hcat,
      show defaultWeights.gap_percent = (0.4 : ℝ) from rfl,
      show defaultWeights.rvol = (0.3 : ℝ) from rfl,
      show defaultWeights.atr_stretch = (0.2 : ℝ) from rfl,
      show defaultWeights.catalyst = (0.1 : ℝ) from rfl]
    norm_num
  exact ⟨hatr, hfinal, by rw [hfinal]; norm_num⟩

/-- C10 (amended): `score_gap` is clamped into [0, 100], `score_rvol` into
[0, 50] and `score_catalyst` into {0, 100} for every real input;
`score_atr_stretch` is clamped below at 0 for every input but stays ≤ 100
only for non-negative stretch (negative stretch can push it above 100, as
the counterexample shows).  Consequently `calculate_final_score` is
non-negative whenever all four weights are non-negative, and with the
default weights it is at most 85 provided the ATR stretch is non-negative. -/
theorem scoring_component_clamps (g r s : ℝ) (c : Bool) (w : ScoringWeights)
    (hw1 : 0 ≤ w.gap_percent) (hw2 : 0 ≤ w.rvol) (hw3 : 0 ≤ w.atr_stretch)
    (hw4 : 0 ≤ w.catalyst) :
    (0 ≤ score_gap g ∧ score_gap g ≤ 100)
    ∧ (0 ≤ score_rvol r ∧ score_rvol r ≤ 50)
    ∧ 0 ≤ score_atr_stretch s (max 0.0001 w.atr_threshold)
    ∧ (0 ≤ s → score_atr_stretch s (max 0.0001 w.atr_threshold) ≤ 100)
    ∧ (score_catalyst c = 0 ∨ score_catalyst c = 100)
    ∧ 0 ≤ calculate_final_score g r s c w
    ∧ (0 ≤ s → calculate_final_score g r s c defaultWeights ≤ 85) := by
  have hgap : 0 ≤ score_gap g ∧ score_gap g ≤ 100 := by
    unfold score_gap
    exact ⟨le_max_left _ _, max_le (by norm_num) (min_le_right _ _)⟩
  have hrvol : 0 ≤ score_rvol r ∧ score_rvol r ≤ 50 := by
    unfold score_rvol
    constructor
    · exact mul_nonneg (le_min (le_max_right _ _) (by norm_num)) (by norm_num)
    · calc min (max r 0) 5 * 10 ≤ 5 * 10 :=
            mul_le_mul_of_nonneg_right (min_le_right _ _) (by norm_num)
        _ = 50 := by norm_num
  have hatr0 : ∀ t : ℝ, 0 ≤ score_atr_stretch s t := by
    intro t
    unfold score_atr_stretch
    split
    · norm_num
    · exact mul_nonneg (le_max_left _ _) (by norm_num)
  have hatr100 : 0 ≤ s → ∀ t : ℝ, 0 < t → score_atr_stretch s t ≤ 100 := by
    intro hs t ht
    unfold score_atr_stretch
    split
    · norm_num
    · have hdiv : 0 ≤ s / t := div_nonneg hs (le_of_lt ht)
      calc max 0 (1 - s / t) * 100 ≤ 1 * 100 :=
            mul_le_mul_of_nonneg_right (max_le (by norm_num) (by linarith))
              (by norm_num)
        _ = 100 := by norm_num
  have htpos : ∀ w' : ScoringWeights, (0 : ℝ) < max 0.0001 w'.atr_threshold :=
    fun w' => lt_of_lt_of_le (by norm_num) (le_max_left _ _)
  have hcat : score_catalyst c = 0 ∨ score_catalyst c = 100 := by
    cases c
    · exact Or.inl rfl
    · exact Or.inr rfl
  have hcat' : 0 ≤ score_catalyst c ∧ score_catalyst c ≤ 100 := by
    rcases hcat with h | h <;> rw [h] <;> norm_num
  refine ⟨hgap, hrvol, hatr0 _, fun hs => hatr100 hs _ (htpos w), hcat, ?_, ?_⟩
  · unfold calculate_final_score
    have h1 := mul_nonneg hgap.1 hw1
    have h2 := mul_nonneg hrvol.1 hw2
    have h3 := mul_nonneg (hatr0 (max 0.0001 w.atr_threshold)) hw3
    have h4 := mul_nonneg hcat'.1 hw4
    linarith
  · intro hs
    have hatrD := hatr100 hs _ (htpos defaultWeights)
    have hatrD0 := hatr0 (max 0.0001 defaultWeights.atr_threshold)
    unfold calculate_final_score
    rw [show defaultWeights.gap_percent = (0.4 : ℝ) from rfl,
      show defaultWeights.rvol = (0.3 : ℝ) from rfl,
      show defaultWeights.atr_stretch = (0.2 : ℝ) from rfl,
      show defaultWeights.catalyst = (0.1 : ℝ) from rfl]
    nlinarith [hgap.1, hgap.2, hrvol.1, hrvol.2, hcat'.1, hcat'.2]

/-- Witness for C10 at concrete inputs and the default weights. -/
theorem scoring_component_clamps_check :
    (0 ≤ score_gap 100 ∧ score_gap 100 ≤ 100)
    ∧ 0 ≤ calculate_final_score 100 5 1 true defaultWeights
    ∧ calculate_final_score 100 5 1 true defaultWeights ≤ 85 := by
  have h := scoring_component_clamps 100 5 1 true defaultWeights
    (by norm_num [defaultWeights]) (by norm_num [defaultWeights])
    (by norm_num [defaultWeights]) (by norm_num [defaultWeights])
  exact ⟨h.1, h.2.2.2.2.2.1, h.2.2.2.2.2.2 (by norm_num)⟩

end StockTracker
